import Mathlib

/-!
# Event Reconciliation + Context Decision Engine: a shallow embedding

This file embeds the core of a personal-calendar backend (event storage with
full-replace sync, upcoming-window queries, expiry cleanup, and a rule-based
context decision engine) and proves the specified properties about it.

The embedding follows the Python source:
* `api/src/events/repository.py`, `api/src/events/service.py`,
  `api/src/events/routes.py`, `api/src/events/schemas.py`,
  `api/src/events/models.py`
* `api/src/context/service.py`, `api/src/context/routes.py`,
  `api/src/context/schemas.py`

Conventions of the embedding:
* Timestamps (`datetime` values produced by `datetime.fromisoformat`) are
  modelled by the `Datetime` structure below; parsing and `isoformat`
  rendering are implemented for the grammar
  `YYYY-MM-DDTHH:MM:SS[±HH:MM]` (the fractional-second and other stdlib
  extensions are not exercised by the repository's logic).
* Database state is a list of event rows plus a fresh-identity counter;
  `uuid4` primary keys are modelled as fresh natural numbers drawn from the
  counter (the property used by the code is only freshness/uniqueness).
* A SQLAlchemy session transaction is modelled by returning the committed
  state on success and, at the route boundary, the original state on error
  (an exception skips the single `commit`, so uncommitted changes are
  discarded).
* Python exceptions are modelled with `Except String`.
-/

/-- A parsed timestamp: calendar fields plus an optional UTC offset
(`negative?`, hours, minutes), as produced by `datetime.fromisoformat`. -/
structure Datetime where
  year : Nat
  month : Nat
  day : Nat
  hour : Nat
  minute : Nat
  second : Nat
  offset : Option (Bool × Nat × Nat) := none
deriving Repr, DecidableEq

/-- Gregorian leap-year rule. -/
def isLeap (y : Nat) : Bool :=
  (y % 4 == 0 && y % 100 != 0) || y % 400 == 0

/-- Number of days in a month (used to validate parsed dates, as
`datetime.fromisoformat` rejects out-of-range components). -/
def daysInMonth (y m : Nat) : Nat :=
  if m = 2 then (if isLeap y then 29 else 28)
  else if m = 4 ∨ m = 6 ∨ m = 9 ∨ m = 11 then 30
  else 31

/-- Days since 1970-01-01 of a civil date (standard civil-from-days
inverse; used only to give `Datetime` its instant ordering). -/
def daysFromCivil (y m d : Int) : Int :=
  let y' : Int := if m ≤ 2 then y - 1 else y
  let era : Int := (if 0 ≤ y' then y' else y' - 399) / 400
  let yoe : Int := y' - era * 400
  let mp : Int := if m ≤ 2 then m + 9 else m - 3
  let doy : Int := (153 * mp + 2) / 5 + d - 1
  let doe : Int := yoe * 365 + yoe / 4 - yoe / 100 + doy
  era * 146097 + doe - 719468

/-- Seconds of the UTC offset, signed. -/
def offsetSeconds : Option (Bool × Nat × Nat) → Int
  | none => 0
  | some (neg, h, m) =>
    let s : Int := h * 3600 + m * 60
    if neg then -s else s

/-- The instant of a `Datetime` in seconds since the epoch; Python's
`datetime` comparison (as executed by the SQL layer) orders by instant. -/
def Datetime.toSec (d : Datetime) : Int :=
  daysFromCivil d.year d.month d.day * 86400
    + (d.hour * 3600 + d.minute * 60 + d.second : Nat)
    - offsetSeconds d.offset

/-- `a < b` on timestamps. -/
def dtLt (a b : Datetime) : Bool := a.toSec < b.toSec

/-- `a ≤ b` on timestamps. -/
def dtLe (a b : Datetime) : Bool := a.toSec ≤ b.toSec

/-! ## ISO-8601 parsing (`datetime.fromisoformat`) -/

/-- Value of an ASCII digit character. -/
def digitVal (c : Char) : Option Nat :=
  if 48 ≤ c.toNat ∧ c.toNat ≤ 57 then some (c.toNat - 48) else none

/-- Parse exactly two digits. -/
def parse2 : List Char → Option (Nat × List Char)
  | c1 :: c2 :: rest => do
    let d1 ← digitVal c1
    let d2 ← digitVal c2
    some (d1 * 10 + d2, rest)
  | _ => none

/-- Parse exactly four digits. -/
def parse4 : List Char → Option (Nat × List Char)
  | c1 :: c2 :: c3 :: c4 :: rest => do
    let d1 ← digitVal c1
    let d2 ← digitVal c2
    let d3 ← digitVal c3
    let d4 ← digitVal c4
    some (d1 * 1000 + d2 * 100 + d3 * 10 + d4, rest)
  | _ => none

/-- Consume one expected character. -/
def expect (ch : Char) : List Char → Option (List Char)
  | c :: rest => if c = ch then some rest else none
  | [] => none

/-- Parse an optional trailing UTC offset `±HH:MM` (must consume the whole
remainder). -/
def parseOffset : List Char → Option (Option (Bool × Nat × Nat))
  | [] => some none
  | c :: rest =>
    if c = '+' ∨ c = '-' then do
      let (h, r1) ← parse2 rest
      let r2 ← expect ':' r1
      let (m, r3) ← parse2 r2
      if r3 = [] ∧ h ≤ 23 ∧ m ≤ 59 then some (some (c = '-', h, m)) else none
    else none

/-- Parse `YYYY-MM-DDTHH:MM:SS[±HH:MM]`, validating component ranges the
way `datetime.fromisoformat` does. -/
def parseIsoAux (cs : List Char) : Option Datetime := do
  let (y, r1) ← parse4 cs
  let r2 ← expect '-' r1
  let (mo, r3) ← parse2 r2
  let r4 ← expect '-' r3
  let (d, r5) ← parse2 r4
  let r6 ← expect 'T' r5
  let (h, r7) ← parse2 r6
  let r8 ← expect ':' r7
  let (mi, r9) ← parse2 r8
  let r10 ← expect ':' r9
  let (s, r11) ← parse2 r10
  let off ← parseOffset r11
  if 1 ≤ y ∧ 1 ≤ mo ∧ mo ≤ 12 ∧ 1 ≤ d ∧ d ≤ daysInMonth y mo ∧
      h ≤ 23 ∧ mi ≤ 59 ∧ s ≤ 59 then
    some { year := y, month := mo, day := d, hour := h, minute := mi,
           second := s, offset := off }
  else none

/-- `datetime.fromisoformat` on a string. -/
def parseIso (s : String) : Option Datetime := parseIsoAux s.data

/-- Replace every `'Z'` by `"+00:00"`. Since the pattern is a single
character, Python's `str.replace` is exactly this character map. -/
def replaceZChars : List Char → List Char
  | [] => []
  | c :: rest =>
    if c = 'Z' then '+' :: '0' :: '0' :: ':' :: '0' :: '0' :: replaceZChars rest
    else c :: replaceZChars rest

/-- `s.replace("Z", "+00:00")`, as performed by `EventRepository.create`
before parsing. -/
def replaceZ (s : String) : String := ⟨replaceZChars s.data⟩

/-! ## ISO-8601 rendering (`datetime.isoformat`) -/

/-- ASCII digit character of a value below 10. -/
def digitChar (d : Nat) : Char := Char.ofNat (48 + d)

/-- Two-digit zero-padded rendering. -/
def pad2 (n : Nat) : List Char := [digitChar (n / 10 % 10), digitChar (n % 10)]

/-- Four-digit zero-padded rendering. -/
def pad4 (n : Nat) : List Char :=
  [digitChar (n / 1000 % 10), digitChar (n / 100 % 10),
   digitChar (n / 10 % 10), digitChar (n % 10)]

/-- Rendering of the optional UTC offset. -/
def offsetChars : Option (Bool × Nat × Nat) → List Char
  | none => []
  | some (neg, h, m) => (if neg then '-' else '+') :: (pad2 h ++ ':' :: pad2 m)

/-- Character-level `isoformat`. -/
def isoformatAux (d : Datetime) : List Char :=
  pad4 d.year ++ '-' :: (pad2 d.month ++ '-' :: (pad2 d.day ++
    'T' :: (pad2 d.hour ++ ':' :: (pad2 d.minute ++ ':' :: (pad2 d.second ++
      offsetChars d.offset)))))

/-- `datetime.isoformat`. -/
def isoformat (d : Datetime) : String := ⟨isoformatAux d⟩

/-! ## Data model (`schemas.py`, `models.py`) -/

/-- `EventCreate`: a client-submitted event in a sync batch
(`api/src/events/schemas.py`). Timestamps arrive as strings. -/
structure EventCreate where
  source_event_id : String
  title : String
  start_at : String
  end_at : String
  state : String
  event_type : Option String := none
  location : Option String := none
  notes : Option String := none
  is_all_day : Option Bool := none
  timezone : Option String := none
deriving Repr, DecidableEq

/-- A stored `Event` row (`api/src/events/models.py`). The `uuid4` primary
key is modelled as a fresh natural number. -/
structure Event where
  id : Nat
  user_id : Nat
  source_event_id : String
  title : String
  start_at : Datetime
  end_at : Datetime
  state : String
  event_type : Option String := none
  location : Option String := none
  notes : Option String := none
  is_all_day : Option Bool := none
  timezone : Option String := none
  created_at : Datetime
  updated_at : Datetime
deriving Repr, DecidableEq

/-- `EventResponse` (`api/src/events/schemas.py`): the external
representation, with timestamps rendered as ISO-8601 strings. -/
structure EventResponse where
  id : Nat
  user_id : Nat
  source_event_id : String
  title : String
  start_at : String
  end_at : String
  state : String
  event_type : Option String := none
  location : Option String := none
  notes : Option String := none
  is_all_day : Option Bool := none
  timezone : Option String := none
  created_at : String
  updated_at : String
deriving Repr, DecidableEq

/-- `EventSyncResponse` (`api/src/events/schemas.py`). -/
structure EventSyncResponse where
  success : Bool
  message : String
  synced_count : Nat
deriving Repr, DecidableEq

/-- The event store: the `events` table plus the fresh-identity source. -/
structure DBState where
  events : List Event
  nextId : Nat
deriving Repr, DecidableEq

/-- Well-formedness of the store: every stored identity was drawn from the
counter, so the next draw is fresh. -/
def DBState.WF (db : DBState) : Prop :=
  ∀ e ∈ db.events, e.id < db.nextId

instance (db : DBState) : Decidable db.WF := by
  unfold DBState.WF; infer_instance

/-! ## Repository (`api/src/events/repository.py`) -/

namespace EventRepository

/-- `EventRepository.create`: parse both timestamps (after the `Z`
replacement) and append a fresh row; a malformed timestamp raises
(modelled as `Except.error`). `created_at`/`updated_at` take the database
clock `now` (`server_default=func.now()`). -/
def create (db : DBState) (user_id : Nat) (event_data : EventCreate)
    (now : Datetime) : Except String (Event × DBState) :=
  match parseIso (replaceZ event_data.start_at) with
  | none => .error ("Invalid isoformat string: " ++ event_data.start_at)
  | some s =>
    match parseIso (replaceZ event_data.end_at) with
    | none => .error ("Invalid isoformat string: " ++ event_data.end_at)
    | some e =>
      let ev : Event :=
        { id := db.nextId
          user_id := user_id
          source_event_id := event_data.source_event_id
          title := event_data.title
          start_at := s
          end_at := e
          state := event_data.state
          event_type := event_data.event_type
          location := event_data.location
          notes := event_data.notes
          is_all_day := event_data.is_all_day
          timezone := event_data.timezone
          created_at := now
          updated_at := now }
      .ok (ev, { events := db.events ++ [ev], nextId := db.nextId + 1 })

/-- `EventRepository.get_user_events`: all of a user's rows ordered by
`start_at`. -/
def get_user_events (db : DBState) (user_id : Nat) : List Event :=
  (db.events.filter (fun e => e.user_id == user_id)).mergeSort
    (fun a b => dtLe a.start_at b.start_at)

/-- `EventRepository.get_upcoming_events`: the user's rows with
`now <= start_at <= now + timedelta(days=days)`, ordered by `start_at`.
Adding a `timedelta` shifts the instant by `days * 86400` seconds. -/
def get_upcoming_events (db : DBState) (user_id : Nat) (now : Datetime)
    (days : Nat := 5) : List Event :=
  (db.events.filter (fun e =>
      e.user_id == user_id
      && decide (now.toSec ≤ e.start_at.toSec)
      && decide (e.start_at.toSec ≤ now.toSec + days * 86400))).mergeSort
    (fun a b => dtLe a.start_at b.start_at)

/-- `EventRepository.delete_user_events`: delete all of a user's rows,
returning the deleted rowcount. -/
def delete_user_events (db : DBState) (user_id : Nat) : Nat × DBState :=
  ((db.events.filter (fun e => e.user_id == user_id)).length,
   { db with events := db.events.filter (fun e => !(e.user_id == user_id)) })

/-- `EventRepository.delete_past_events`: delete the user's rows with
`end_at < now` (strict), returning the deleted rowcount. -/
def delete_past_events (db : DBState) (user_id : Nat) (now : Datetime) :
    Nat × DBState :=
  ((db.events.filter (fun e => e.user_id == user_id && dtLt e.end_at now)).length,
   { db with events :=
      db.events.filter (fun e => !(e.user_id == user_id && dtLt e.end_at now)) })

end EventRepository

/-! ## Service and routes (`service.py`, `routes.py`) -/

namespace EventService

/-- The insertion loop of `sync_events`: create each event in order; the
first failure aborts. -/
def insertAll (user_id : Nat) (now : Datetime) :
    DBState → List EventCreate → Except String DBState
  | db, [] => .ok db
  | db, c :: rest =>
    match EventRepository.create db user_id c now with
    | .error msg => .error msg
    | .ok (_, db') => insertAll user_id now db' rest

/-- `EventService.sync_events`: delete the user's rows, insert the batch,
commit once, and return the batch length. An error anywhere leaves the
transaction uncommitted (handled at the route boundary). -/
def sync_events (db : DBState) (user_id : Nat) (events : List EventCreate)
    (now : Datetime) : Except String (Nat × DBState) := do
  let (_, db1) := EventRepository.delete_user_events db user_id
  let db2 ← insertAll user_id now db1 events
  return (events.length, db2)

/-- `EventService.auto_sync`: clean up past events and commit. -/
def auto_sync (db : DBState) (user_id : Nat) (now : Datetime) :
    Bool × DBState :=
  let (_, db') := EventRepository.delete_past_events db user_id now
  (true, db')

/-- `EventService.get_upcoming_events`: read-only query (no commit). -/
def get_upcoming_events (db : DBState) (user_id : Nat) (now : Datetime)
    (days : Nat := 5) : List Event :=
  EventRepository.get_upcoming_events db user_id now days

/-- `EventService._to_response`: serialize a stored row, rendering every
timestamp with `isoformat`. -/
def to_response (event : Event) : EventResponse :=
  { id := event.id
    user_id := event.user_id
    source_event_id := event.source_event_id
    title := event.title
    start_at := isoformat event.start_at
    end_at := isoformat event.end_at
    state := event.state
    event_type := event.event_type
    location := event.location
    notes := event.notes
    is_all_day := event.is_all_day
    timezone := event.timezone
    created_at := isoformat event.created_at
    updated_at := isoformat event.updated_at }

end EventService

/-- The `POST /events/sync` route: on success commit and report the count;
on any exception the transaction is rolled back (the single commit in
`sync_events` was never reached), so the prior state stays visible and the
response carries `success=false`. -/
def sync_events_route (db : DBState) (user_id : Nat)
    (events : List EventCreate) (now : Datetime) :
    EventSyncResponse × DBState :=
  match EventService.sync_events db user_id events now with
  | .ok (n, db') =>
    ({ success := true
       message := "Successfully synced " ++ toString n ++ " events"
       synced_count := n }, db')
  | .error msg => ({ success := false, message := msg, synced_count := 0 }, db)

/-! ## Context engine (`api/src/context/schemas.py`) -/

/-- `LocationData`. Float fields are modelled as rationals; the engine
never computes with them. -/
structure LocationData where
  latitude : Option Rat := none
  longitude : Option Rat := none
  altitude : Option Rat := none
  accuracy : Option Rat := none
  timestamp : Option String := none
deriving Repr, DecidableEq

/-- `MotionData`. -/
structure MotionData where
  activity_type : Option String := none
  confidence : Option Rat := none
  steps : Option Int := none
  timestamp : Option String := none
deriving Repr, DecidableEq

/-- `HealthData`. -/
structure HealthData where
  heart_rate : Option Rat := none
  step_count : Option Int := none
  active_energy : Option Rat := none
  timestamp : Option String := none
deriving Repr, DecidableEq

/-- `CalendarEvent` inside a context snapshot. -/
structure CalendarEvent where
  title : String
  start : String
  «end» : String
  location : Option String := none
  is_all_day : Bool := false
deriving Repr, DecidableEq

/-- `ContextSnapshot`. The free-form `user_info` map is modelled as a
string-keyed association list. -/
structure ContextSnapshot where
  timestamp : String
  location : Option LocationData := none
  motion : Option MotionData := none
  health : Option HealthData := none
  calendar_events : Option (List CalendarEvent) := none
  user_info : Option (List (String × String)) := none
  recent_status : Option (List String) := none
deriving Repr, DecidableEq

/-- `NotificationPayload`. -/
structure NotificationPayload where
  priority : Option String := none
  title : String
  body : String
  action_label : Option String := none
deriving Repr, DecidableEq

/-- `ContextEngineResponse`. -/
structure ContextEngineResponse where
  decision : String
  reasoning : Option String := none
  notification : Option NotificationPayload := none
deriving Repr, DecidableEq

namespace ContextService

/-- `ContextService.process_context` (`api/src/context/service.py`): the
flat dispatch over the trigger. Python truthiness is embedded exactly:
`if snapshot.calendar_events:` demands a non-empty list, and
`if snapshot.motion and snapshot.motion.activity_type:` demands a present,
non-empty activity string. The `user` argument is only ever logged. -/
def process_context (user : Nat) (trigger : String)
    (snapshot : ContextSnapshot) : ContextEngineResponse :=
  if trigger = "location_change" then
    match snapshot.calendar_events with
    | some (next_event :: _) =>
      { decision := "notify"
        reasoning := some ("User arrived at location, upcoming event: "
          ++ next_event.title)
        notification := some
          { priority := some ("normal")
            title := "即将开始的活动"
            body := "您的活动 \x27" ++ next_event.title ++ "\x27 即将开始"
            action_label := some ("查看详情") } }
    | _ => { decision := "no_action" }
  else if trigger = "time_based" then
    match snapshot.calendar_events with
    | some (next_event :: _) =>
      { decision := "notify"
        reasoning := some ("Time-based reminder for: " ++ next_event.title)
        notification := some
          { priority := some ("high")
            title := "活动提醒"
            body := "您的活动 \x27" ++ next_event.title
              ++ "\x27 将在15分钟后开始"
            action_label := some ("准备出发") } }
    | _ => { decision := "no_action" }
  else if trigger = "activity_change" then
    match snapshot.motion with
    | some motion =>
      match motion.activity_type with
      | some a =>
        if a ≠ "" then
          { decision := "monitor"
            reasoning := some ("Activity changed to: " ++ a) }
        else { decision := "no_action" }
      | none => { decision := "no_action" }
    | none => { decision := "no_action" }
  else if trigger = "health_alert" then
    match snapshot.health with
    | some _ =>
      { decision := "notify"
        reasoning := some ("Health data requires attention")
        notification := some
          { priority := some ("high")
            title := "健康提醒"
            body := "建议您适当休息，注意身体状况"
            action_label := some ("了解更多") } }
    | none => { decision := "no_action" }
  else
    { decision := "no_action"
      reasoning := some ("Unknown trigger type: " ++ trigger) }

end ContextService

/-- The `POST /context/engine` boundary (`api/src/context/routes.py`): the
body of the `try` block is modelled as an `Except` result; the `except`
clause converts any raised error into a `decision="error"` outcome whose
reasoning is the error message. -/
def context_engine_boundary
    (result : Except String ContextEngineResponse) : ContextEngineResponse :=
  match result with
  | .ok response => response
  | .error e =>
    { decision := "error", reasoning := some e, notification := none }

/-- The route when processing succeeds: it returns the engine's outcome. -/
def context_engine (user : Nat) (trigger : String)
    (snapshot : ContextSnapshot) : ContextEngineResponse :=
  context_engine_boundary
    (.ok (ContextService.process_context user trigger snapshot))

/-- Modelled from the spec: deserializing the external event-response
representation back into a stored `Event`. The repository contains no such
decoder (only the `Event -> EventResponse` direction exists in
`service.py`), so, per the spec's round-trip property ("serializing and
deserializing an Event through the external event-response representation
preserves every field exactly, timestamps as ISO-8601, identity
unchanged"), each ISO-8601 timestamp string is parsed back with
`datetime.fromisoformat` and every other field is copied. -/
def from_response (r : EventResponse) : Option Event := do
  let s ← parseIso r.start_at
  let e ← parseIso r.end_at
  let c ← parseIso r.created_at
  let u ← parseIso r.updated_at
  some
    { id := r.id
      user_id := r.user_id
      source_event_id := r.source_event_id
      title := r.title
      start_at := s
      end_at := e
      state := r.state
      event_type := r.event_type
      location := r.location
      notes := r.notes
      is_all_day := r.is_all_day
      timezone := r.timezone
      created_at := c
      updated_at := u }

/-- Range constraint on an optional UTC offset. -/
def offsetValid : Option (Bool × Nat × Nat) → Prop
  | none => True
  | some (_, h, m) => h ≤ 23 ∧ m ≤ 59

instance : (o : Option (Bool × Nat × Nat)) → Decidable (offsetValid o)
  | none => .isTrue trivial
  | some (_, _, _) => by unfold offsetValid; infer_instance

/-- The component ranges under which a `Datetime` is a value
`datetime.fromisoformat` could have produced (what the parser validates). -/
def Datetime.Valid (d : Datetime) : Prop :=
  1 ≤ d.year ∧ d.year ≤ 9999 ∧ 1 ≤ d.month ∧ d.month ≤ 12 ∧
  1 ≤ d.day ∧ d.day ≤ daysInMonth d.year d.month ∧
  d.hour ≤ 23 ∧ d.minute ≤ 59 ∧ d.second ≤ 59 ∧ offsetValid d.offset

instance (d : Datetime) : Decidable d.Valid := by
  unfold Datetime.Valid; infer_instance

/-! ## Observation tuples and concrete inputs used by witnesses -/

/-- The correlation tuple of a stored event (timestamps wrapped in `some`
to compare against parsed client input). -/
def eventTupleSome (e : Event) :
    String × String × Option Datetime × Option Datetime :=
  (e.source_event_id, e.title, some e.start_at, some e.end_at)

/-- The correlation tuple of a client-submitted event, with its timestamps
parsed the way `EventRepository.create` parses them. -/
def createTuple (c : EventCreate) :
    String × String × Option Datetime × Option Datetime :=
  (c.source_event_id, c.title, parseIso (replaceZ c.start_at),
   parseIso (replaceZ c.end_at))

/-- A reference clock for concrete examples. -/
def exNow : Datetime :=
  { year := 2026, month := 1, day := 10, hour := 12, minute := 0, second := 0 }

/-- A pre-existing event of user 1. -/
def exOld : Event :=
  { id := 0, user_id := 1, source_event_id := "old-1", title := "Old A"
    start_at := { year := 2026, month := 1, day := 9, hour := 9,
                  minute := 0, second := 0 }
    end_at := { year := 2026, month := 1, day := 9, hour := 10,
                minute := 0, second := 0 }
    state := "pending", created_at := exNow, updated_at := exNow }

/-- A pre-existing event of user 2. -/
def exOther : Event :=
  { id := 1, user_id := 2, source_event_id := "other-1", title := "Other"
    start_at := { year := 2026, month := 1, day := 12, hour := 9,
                  minute := 0, second := 0 }
    end_at := { year := 2026, month := 1, day := 12, hour := 10,
                minute := 0, second := 0 }
    state := "pending", created_at := exNow, updated_at := exNow }

/-- A concrete store holding one event each for users 1 and 2. -/
def exDb : DBState := { events := [exOld, exOther], nextId := 2 }

/-- A well-formed two-event client batch. -/
def exBatch : List EventCreate :=
  [{ source_event_id := "src-1", title := "Team Sync"
     start_at := "2026-01-10T13:00:00Z", end_at := "2026-01-10T14:00:00Z"
     state := "pending" },
   { source_event_id := "src-2", title := "Review"
     start_at := "2026-01-11T09:30:00+08:00"
     end_at := "2026-01-11T10:30:00+08:00", state := "confirmed" }]

/-- A client event with a malformed `start_at`. -/
def exBadEvent : EventCreate :=
  { source_event_id := "src-3", title := "Broken"
    start_at := "not-a-timestamp", end_at := "2026-01-10T15:00:00Z"
    state := "pending" }

/-- A batch whose second event has a malformed timestamp. -/
def exBadBatch : List EventCreate :=
  [{ source_event_id := "src-1", title := "Team Sync"
     start_at := "2026-01-10T13:00:00Z", end_at := "2026-01-10T14:00:00Z"
     state := "pending" },
   exBadEvent]

/-- Two events of user 7 sharing the same `start_at`, inside the
5-day upcoming window of `exNow`. -/
def exDupA : Event :=
  { id := 10, user_id := 7, source_event_id := "dup-a", title := "Dup A"
    start_at := { year := 2026, month := 1, day := 11, hour := 9,
                  minute := 0, second := 0 }
    end_at := { year := 2026, month := 1, day := 11, hour := 10,
                minute := 0, second := 0 }
    state := "pending", created_at := exNow, updated_at := exNow }

/-- Second event with the identical `start_at`. -/
def exDupB : Event :=
  { exDupA with id := 11, source_event_id := "dup-b", title := "Dup B" }

/-- A store in which user 7 has two events starting at the same instant. -/
def exDbDup : DBState := { events := [exDupA, exDupB], nextId := 12 }

/-- A fully-populated stored event for the serialization round trip. -/
def exFull : Event :=
  { id := 5, user_id := 1, source_event_id := "full-1", title := "Full"
    start_at := { year := 2026, month := 1, day := 10, hour := 13,
                  minute := 0, second := 0, offset := some (false, 0, 0) }
    end_at := { year := 2026, month := 1, day := 10, hour := 14,
                minute := 30, second := 15, offset := some (true, 8, 30) }
    state := "confirmed", event_type := some "meeting"
    location := some ("Room 1"), notes := some ("bring slides")
    is_all_day := some false, timezone := some ("Asia/Shanghai")
    created_at := exNow, updated_at := exNow }

/-- A calendar event inside a snapshot. -/
def exCalEvent : CalendarEvent :=
  { title := "Team Sync", start := "2026-01-10T13:00:00Z"
    «end» := "2026-01-10T14:00:00Z" }

/-- A snapshot carrying one calendar event. -/
def exSnapCal : ContextSnapshot :=
  { timestamp := "2026-01-10T12:00:00Z"
    calendar_events := some [exCalEvent] }

/-- A snapshot whose motion activity is the empty string: the field is
present, but Python truthiness treats it as absent. -/
def exSnapEmptyActivity : ContextSnapshot :=
  { timestamp := "2026-01-10T12:00:00Z"
    motion := some { activity_type := some ("") } }

/-- A snapshot with a running activity. -/
def exSnapRunning : ContextSnapshot :=
  { timestamp := "2026-01-10T12:00:00Z"
    motion := some { activity_type := some ("running") } }

/-- A snapshot carrying health data. -/
def exSnapHealth : ContextSnapshot :=
  { timestamp := "2026-01-10T12:00:00Z"
    health := some { heart_rate := some 88 } }

/-- A snapshot with no optional sections at all. -/
def exSnapBare : ContextSnapshot := { timestamp := "2026-01-10T12:00:00Z" }

/-- The store expected after syncing `exBatch` for user 1 against `exDb`:
user 1's old event is gone, user 2's is untouched, and the two batch
events are installed with fresh identities 2 and 3. -/
def exDbAfter : DBState :=
  { events :=
      [exOther,
       { id := 2, user_id := 1, source_event_id := "src-1"
         title := "Team Sync"
         start_at := { year := 2026, month := 1, day := 10, hour := 13,
                       minute := 0, second := 0, offset := some (false, 0, 0) }
         end_at := { year := 2026, month := 1, day := 10, hour := 14,
                     minute := 0, second := 0, offset := some (false, 0, 0) }
         state := "pending", created_at := exNow, updated_at := exNow },
       { id := 3, user_id := 1, source_event_id := "src-2"
         title := "Review"
         start_at := { year := 2026, month := 1, day := 11, hour := 9,
                       minute := 30, second := 0, offset := some (false, 8, 0) }
         end_at := { year := 2026, month := 1, day := 11, hour := 10,
                     minute := 30, second := 0, offset := some (false, 8, 0) }
         state := "confirmed", created_at := exNow, updated_at := exNow }]
    nextId := 4 }

/-! ## Round-trip lemmas for the timestamp grammar -/

theorem digitVal_digitChar {d : Nat} (h : d < 10) :
    digitVal (digitChar d) = some d := by
  interval_cases d <;> decide

theorem parse2_pad2 (n : Nat) (h : n < 100) (rest : List Char) :
    parse2 (pad2 n ++ rest) = some (n, rest) := by
  have h1 : n / 10 % 10 < 10 := Nat.mod_lt _ (by omega)
  have h2 : n % 10 < 10 := Nat.mod_lt _ (by omega)
  simp [pad2, parse2, digitVal_digitChar h1, digitVal_digitChar h2]
  omega

theorem parse2_pad2_nil (n : Nat) (h : n < 100) :
    parse2 (pad2 n) = some (n, []) := by
  have := parse2_pad2 n h []
  rwa [List.append_nil] at this

theorem parse4_pad4 (n : Nat) (h : n < 10000) (rest : List Char) :
    parse4 (pad4 n ++ rest) = some (n, rest) := by
  have h1 : n / 1000 % 10 < 10 := Nat.mod_lt _ (by omega)
  have h2 : n / 100 % 10 < 10 := Nat.mod_lt _ (by omega)
  have h3 : n / 10 % 10 < 10 := Nat.mod_lt _ (by omega)
  have h4 : n % 10 < 10 := Nat.mod_lt _ (by omega)
  simp [pad4, parse4, digitVal_digitChar h1, digitVal_digitChar h2,
    digitVal_digitChar h3, digitVal_digitChar h4]
  omega

theorem expect_cons (c : Char) (rest : List Char) :
    expect c (c :: rest) = some rest := by
  simp [expect]

theorem parseOffset_offsetChars (o : Option (Bool × Nat × Nat))
    (h : offsetValid o) : parseOffset (offsetChars o) = some o := by
  match o with
  | none => rfl
  | some (neg, hh, mm) =>
    obtain ⟨hh23, mm59⟩ := h
    cases neg with
    | false =>
      simp [offsetChars, parseOffset, parse2_pad2 hh (by omega),
        expect_cons, parse2_pad2_nil mm (by omega), hh23, mm59]
    | true =>
      simp [offsetChars, parseOffset, parse2_pad2 hh (by omega),
        expect_cons, parse2_pad2_nil mm (by omega), hh23, mm59]

theorem daysInMonth_le (y m : Nat) : daysInMonth y m ≤ 31 := by
  unfold daysInMonth
  split
  · split <;> omega
  · split <;> omega

theorem parseIsoAux_isoformatAux (d : Datetime) (h : d.Valid) :
    parseIsoAux (isoformatAux d) = some d := by
  obtain ⟨hy1, hy2, hm1, hm2, hd1, hd2, hh, hmi, hs, hoff⟩ := h
  have hdim := daysInMonth_le d.year d.month
  simp only [isoformatAux, parseIsoAux, Option.bind_eq_bind,
    parse4_pad4 d.year (by omega), Option.some_bind, expect_cons,
    parse2_pad2 d.month (by omega), parse2_pad2 d.day (by omega),
    parse2_pad2 d.hour (by omega), parse2_pad2 d.minute (by omega),
    parse2_pad2 d.second (by omega),
    parseOffset_offsetChars d.offset hoff]
  rw [if_pos ⟨hy1, hm1, hm2, hd1, hd2, hh, hmi, hs⟩]

theorem parseIso_isoformat (d : Datetime) (h : d.Valid) :
    parseIso (isoformat d) = some d :=
  parseIsoAux_isoformatAux d h

/-! ## Structure of the insertion loop -/

theorem insertAll_ok (uid : Nat) (now : Datetime) (cs : List EventCreate) :
    ∀ (db db' : DBState),
      EventService.insertAll uid now db cs = .ok db' →
      db'.nextId = db.nextId + cs.length ∧
      ∃ L : List Event,
        db'.events = db.events ++ L ∧
        L.map eventTupleSome = cs.map createTuple ∧
        (∀ e ∈ L, e.user_id = uid) ∧
        L.map Event.id = List.range' db.nextId cs.length := by
  induction cs with
  | nil =>
    intro db db' h
    simp only [EventService.insertAll] at h
    cases h
    exact ⟨by simp, [], by simp, by simp [createTuple], by simp, by simp⟩
  | cons c rest ih =>
    intro db db' h
    simp only [EventService.insertAll] at h
    cases hc : EventRepository.create db uid c now with
    | error msg => rw [hc] at h; cases h
    | ok p =>
      obtain ⟨ev, db1⟩ := p
      rw [hc] at h
      obtain ⟨hnext, L, hev, htup, huser, hid⟩ := ih db1 db' h
      simp only [EventRepository.create] at hc
      cases hs : parseIso (replaceZ c.start_at) with
      | none => rw [hs] at hc; cases hc
      | some sdt =>
        cases he : parseIso (replaceZ c.end_at) with
        | none => rw [hs, he] at hc; cases hc
        | some edt =>
          rw [hs, he] at hc
          simp only [Except.ok.injEq, Prod.mk.injEq] at hc
          obtain ⟨hev', hdb1⟩ := hc
          subst hdb1
          simp only at hnext hev hid
          refine ⟨by simp only [List.length_cons]; omega, ev :: L, ?_, ?_, ?_, ?_⟩
          · rw [hev, ← hev']
            simp
          · simp only [List.map_cons, htup, List.cons.injEq, and_true]
            rw [← hev']
            simp [eventTupleSome, createTuple, hs, he]
          · intro e he'
            rcases List.mem_cons.mp he' with rfl | hmem
            · rw [← hev']
            · exact huser e hmem
          · simp only [List.map_cons, List.length_cons, List.range'_succ, List.cons.injEq]
            constructor
            · rw [← hev']
            · simpa using hid

theorem insertAll_error (uid : Nat) (now : Datetime) (c : EventCreate)
    (hbad : parseIso (replaceZ c.start_at) = none ∨
            parseIso (replaceZ c.end_at) = none) :
    ∀ (cs : List EventCreate), c ∈ cs → ∀ db : DBState,
      ∃ msg, EventService.insertAll uid now db cs = .error msg := by
  intro cs
  induction cs with
  | nil => intro hmem; cases hmem
  | cons d rest ih =>
    intro hmem db
    rcases List.mem_cons.mp hmem with rfl | hmem'
    · rcases hbad with h1 | h2
      · refine ⟨"Invalid isoformat string: " ++ c.start_at, ?_⟩
        simp only [EventService.insertAll, EventRepository.create, h1]
      · cases hs : parseIso (replaceZ c.start_at) with
        | none =>
          refine ⟨"Invalid isoformat string: " ++ c.start_at, ?_⟩
          simp only [EventService.insertAll, EventRepository.create, hs]
        | some sdt =>
          refine ⟨"Invalid isoformat string: " ++ c.end_at, ?_⟩
          simp only [EventService.insertAll, EventRepository.create, hs, h2]
    · cases hcr : EventRepository.create db uid d now with
      | error msg =>
        exact ⟨msg, by simp only [EventService.insertAll, hcr]⟩
      | ok p =>
        obtain ⟨msg, hmsg⟩ := ih hmem' p.2
        refine ⟨msg, ?_⟩
        simp only [EventService.insertAll, hcr]
        exact hmsg

theorem sync_events_eq (db : DBState) (uid : Nat) (evs : List EventCreate)
    (now : Datetime) :
    EventService.sync_events db uid evs now =
      match EventService.insertAll uid now
          { events := db.events.filter (fun e => !(e.user_id == uid))
            nextId := db.nextId } evs with
      | .ok db2 => .ok (evs.length, db2)
      | .error msg => .error msg := by
  simp only [EventService.sync_events, EventRepository.delete_user_events]
  cases EventService.insertAll uid now
      { events := db.events.filter (fun e => !(e.user_id == uid))
        nextId := db.nextId } evs <;> rfl

/-- Claim C1. `sync(user, B)` is a full replace: on success the returned
count is `len(B)`; the user's stored events afterwards carry exactly the
multiset (here: the exact sequence) of `(source_event_id, title, start_at,
end_at)` tuples of `B`; every installed event gets a fresh identity (not
equal to any previously stored primary key, and pairwise distinct); and
the empty batch empties the user's event set and returns 0. -/
theorem C1_sync_full_replace (db : DBState) (uid : Nat) (B : List EventCreate)
    (now : Datetime) (n : Nat) (db' : DBState) (hwf : db.WF)
    (h : EventService.sync_events db uid B now = .ok (n, db')) :
    n = B.length ∧
    (db'.events.filter (fun e => e.user_id == uid)).map eventTupleSome
      = B.map createTuple ∧
    (∀ e ∈ db'.events, e.user_id = uid → e.id ∉ db.events.map Event.id) ∧
    ((db'.events.filter (fun e => e.user_id == uid)).map Event.id).Nodup ∧
    (B = [] → db'.events.filter (fun e => e.user_id == uid) = [] ∧ n = 0) := by
  rw [sync_events_eq] at h
  cases hins : EventService.insertAll uid now
      { events := db.events.filter (fun e => !(e.user_id == uid))
        nextId := db.nextId } B with
  | error msg => rw [hins] at h; cases h
  | ok db2 =>
    rw [hins] at h
    simp only [Except.ok.injEq, Prod.mk.injEq] at h
    obtain ⟨hn, hdb⟩ := h
    subst hdb
    obtain ⟨hnext, L, hev, htup, huser, hid⟩ := insertAll_ok uid now B _ db2 hins
    simp only at hnext hev hid
    have hfilter : db2.events.filter (fun e => e.user_id == uid) = L := by
      rw [hev, List.filter_append]
      have h1 : (db.events.filter (fun e => !(e.user_id == uid))).filter
          (fun e => e.user_id == uid) = [] := by
        simp only [List.filter_filter]
        apply List.filter_eq_nil_iff.mpr
        intro a _
        cases hau : a.user_id == uid <;> simp [hau]
      have h2 : L.filter (fun e => e.user_id == uid) = L :=
        List.filter_eq_self.mpr (fun a ha => by simp [huser a ha])
      rw [h1, h2, List.nil_append]
    refine ⟨hn.symm, ?_, ?_, ?_, ?_⟩
    · rw [hfilter, htup]
    · intro e hmem hu hcontra
      rw [hev] at hmem
      rcases List.mem_append.mp hmem with hmem1 | hmem2
      · have := List.mem_filter.mp hmem1
        simp [hu] at this
      · obtain ⟨e0, he0, heid⟩ := List.mem_map.mp hcontra
        have hlt := hwf e0 he0
        have hmemid : e.id ∈ List.range' db.nextId B.length := by
          rw [← hid]
          exact List.mem_map_of_mem Event.id hmem2
        obtain ⟨i, hi, hieq⟩ := List.mem_range'.mp hmemid
        omega
    · rw [hfilter, hid]
      exact List.nodup_range' _ _
    · intro hB
      subst hB
      refine ⟨?_, by simpa using hn.symm⟩
      rw [hfilter]
      simpa using htup

/-- Witness for C1: the concrete sync of `exBatch` for user 1. -/
theorem C1_sync_full_replace_witness :
    exDb.WF ∧
    EventService.sync_events exDb 1 exBatch exNow = .ok (2, exDbAfter) ∧
    (exDbAfter.events.filter (fun e => e.user_id == 1)).map eventTupleSome
      = exBatch.map createTuple ∧
    ((exDbAfter.events.filter (fun e => e.user_id == 1)).map Event.id).Nodup := by
  have h := C1_sync_full_replace exDb 1 exBatch exNow 2 exDbAfter (by decide) rfl
  exact ⟨by decide, rfl, h.2.1, h.2.2.2.1⟩

/-- Claim C3. Sync is atomic: if any batch element has a malformed
`start_at` or `end_at`, the whole request fails (`success=false`,
`synced_count=0`) and the route leaves the store exactly as it was — the
user's prior events stay visible and nothing from the new batch is. -/
theorem C3_sync_atomic (db : DBState) (uid : Nat) (B : List EventCreate)
    (now : Datetime) (c : EventCreate) (hc : c ∈ B)
    (hbad : parseIso (replaceZ c.start_at) = none ∨
            parseIso (replaceZ c.end_at) = none) :
    (sync_events_route db uid B now).2 = db ∧
    (sync_events_route db uid B now).1.success = false ∧
    (sync_events_route db uid B now).1.synced_count = 0 := by
  obtain ⟨msg, hmsg⟩ := insertAll_error uid now c hbad B hc
    { events := db.events.filter (fun e => !(e.user_id == uid))
      nextId := db.nextId }
  have hsync : EventService.sync_events db uid B now = .error msg := by
    rw [sync_events_eq, hmsg]
  simp [sync_events_route, hsync]

/-- Witness for C3: the concrete bad batch leaves `exDb` untouched. -/
theorem C3_sync_atomic_witness :
    exBadEvent ∈ exBadBatch ∧
    parseIso (replaceZ exBadEvent.start_at) = none ∧
    (sync_events_route exDb 1 exBadBatch exNow).2 = exDb ∧
    (sync_events_route exDb 1 exBadBatch exNow).1.success = false := by
  have h := C3_sync_atomic exDb 1 exBadBatch exNow exBadEvent
    (by decide) (Or.inl rfl)
  exact ⟨by decide, rfl, h.1, h.2.1⟩

/-- Claim C4. `cleanup(user_id)` (the expiry cleaner) removes exactly the
user's events with `end_at < now` (strict: an event ending exactly now is
retained), leaves every other event unchanged, returns the removed
rowcount, and a second immediate call removes 0 events. -/
theorem C4_cleanup_exact (db : DBState) (uid : Nat) (now : Datetime) :
    (EventRepository.delete_past_events db uid now).2.events
      = db.events.filter (fun e => !(e.user_id == uid && dtLt e.end_at now)) ∧
    (EventRepository.delete_past_events db uid now).1
      = (db.events.filter (fun e => e.user_id == uid && dtLt e.end_at now)).length ∧
    (∀ e ∈ db.events, e.user_id = uid → dtLt e.end_at now = true →
      e ∉ (EventRepository.delete_past_events db uid now).2.events) ∧
    (∀ e ∈ db.events, ¬(e.user_id = uid ∧ dtLt e.end_at now = true) →
      e ∈ (EventRepository.delete_past_events db uid now).2.events) ∧
    (∀ e ∈ db.events, e.user_id = uid → e.end_at.toSec = now.toSec →
      e ∈ (EventRepository.delete_past_events db uid now).2.events) ∧
    EventRepository.delete_past_events
        (EventRepository.delete_past_events db uid now).2 uid now
      = (0, (EventRepository.delete_past_events db uid now).2) := by
  refine ⟨rfl, rfl, ?_, ?_, ?_, ?_⟩
  · intro e hmem hu hlt hcontra
    have := (List.mem_filter.mp hcontra).2
    simp [hu, hlt] at this
  · intro e hmem hcond
    apply List.mem_filter.mpr
    refine ⟨hmem, ?_⟩
    by_cases h1 : e.user_id = uid
    · have h2 : dtLt e.end_at now = false := by
        cases hd : dtLt e.end_at now
        · rfl
        · exact absurd ⟨h1, hd⟩ hcond
      simp [h1, h2]
    · simp [h1]
  · intro e hmem hu heq
    apply List.mem_filter.mpr
    refine ⟨hmem, ?_⟩
    have h2 : dtLt e.end_at now = false := by
      simp [dtLt, heq]
    simp [h2]
  · have hnil : ((EventRepository.delete_past_events db uid now).2.events.filter
        (fun e => e.user_id == uid && dtLt e.end_at now)) = [] := by
      simp only [EventRepository.delete_past_events, List.filter_filter]
      apply List.filter_eq_nil_iff.mpr
      intro a _
      cases h : (a.user_id == uid && dtLt a.end_at now) <;> simp [h]
    have hsame : ((EventRepository.delete_past_events db uid now).2.events.filter
        (fun e => !(e.user_id == uid && dtLt e.end_at now)))
        = (EventRepository.delete_past_events db uid now).2.events :=
      List.filter_eq_self.mpr (fun a ha => by
        have := (List.mem_filter.mp ha).2
        exact this)
    have hlen : ((EventRepository.delete_past_events db uid now).2.events.filter
        (fun e => e.user_id == uid && dtLt e.end_at now)).length = 0 := by
      rw [hnil]; rfl
    simp only [EventRepository.delete_past_events]
    simp only [EventRepository.delete_past_events] at hnil hsame hlen
    rw [Prod.mk.injEq]
    constructor
    · exact hlen
    · rw [DBState.mk.injEq]
      exact ⟨hsame, rfl⟩

/-- Witness for C4 at a concrete store: user 7 has no past events at
`exNow`, user 1's old event is removed, and the second call removes 0. -/
theorem C4_cleanup_exact_witness :
    exOld ∈ exDb.events ∧ exOld.user_id = 1 ∧ dtLt exOld.end_at exNow = true ∧
    exOld ∉ (EventRepository.delete_past_events exDb 1 exNow).2.events ∧
    exOther ∈ (EventRepository.delete_past_events exDb 1 exNow).2.events ∧
    EventRepository.delete_past_events
        (EventRepository.delete_past_events exDb 1 exNow).2 1 exNow
      = (0, (EventRepository.delete_past_events exDb 1 exNow).2) := by
  have h := C4_cleanup_exact exDb 1 exNow
  exact ⟨by decide, by decide, by decide,
    h.2.2.1 exOld (by decide) (by decide) (by decide),
    h.2.2.2.1 exOther (by decide) (by decide),
    h.2.2.2.2.2⟩

/-- Claim C5, amended. `upcoming(user_id, window_days)` returns exactly the
user's events with `now <= start_at <= now + window_days` (inclusive at
both boundary instants), ordered by non-decreasing `start_at` (the order
is not strict when two events share a start instant), with `window_days`
defaulting to 5; the query reads the store without modifying it. -/
theorem C5_upcoming_window (db : DBState) (uid : Nat) (now : Datetime)
    (days : Nat) :
    (EventRepository.get_upcoming_events db uid now days).Perm
      (db.events.filter (fun e => e.user_id == uid
        && decide (now.toSec ≤ e.start_at.toSec)
        && decide (e.start_at.toSec ≤ now.toSec + days * 86400))) ∧
    (∀ e, e ∈ EventRepository.get_upcoming_events db uid now days ↔
      (e ∈ db.events ∧ e.user_id = uid ∧ now.toSec ≤ e.start_at.toSec ∧
       e.start_at.toSec ≤ now.toSec + days * 86400)) ∧
    (EventRepository.get_upcoming_events db uid now days).Pairwise
      (fun a b => a.start_at.toSec ≤ b.start_at.toSec) ∧
    EventRepository.get_upcoming_events db uid now
      = EventRepository.get_upcoming_events db uid now 5 := by
  have hperm : (EventRepository.get_upcoming_events db uid now days).Perm
      (db.events.filter (fun e => e.user_id == uid
        && decide (now.toSec ≤ e.start_at.toSec)
        && decide (e.start_at.toSec ≤ now.toSec + days * 86400))) :=
    List.mergeSort_perm _ _
  refine ⟨hperm, ?_, ?_, rfl⟩
  · intro e
    rw [hperm.mem_iff, List.mem_filter]
    simp only [Bool.and_eq_true, beq_iff_eq, decide_eq_true_eq]
    tauto
  · have hs := @List.sorted_mergeSort Event
      (fun a b : Event => dtLe a.start_at b.start_at)
      (fun a b c hab hbc => by
        simp only [dtLe, decide_eq_true_eq] at hab hbc ⊢
        omega)
      (fun a b => by
        simp only [dtLe, Bool.or_eq_true, decide_eq_true_eq]
        omega)
      (db.events.filter (fun e => e.user_id == uid
        && decide (now.toSec ≤ e.start_at.toSec)
        && decide (e.start_at.toSec ≤ now.toSec + days * 86400)))
    exact hs.imp (fun {a b} hab => by
      simpa [dtLe] using hab)

/-- C5 as stated is false at a concrete store: user 7 holds two events
with the same `start_at`, both inside the 5-day window of `exNow`, so the
returned sequence cannot be strictly ascending in `start_at`. -/
theorem C5_upcoming_not_strict :
    ¬ (EventRepository.get_upcoming_events exDbDup 7 exNow 5).Pairwise
        (fun a b => a.start_at.toSec < b.start_at.toSec) := by
  intro hp
  have hperm : (EventRepository.get_upcoming_events exDbDup 7 exNow 5).Perm
      [exDupA, exDupB] := by
    have h := List.mergeSort_perm
      (exDbDup.events.filter (fun e => e.user_id == 7
        && decide (exNow.toSec ≤ e.start_at.toSec)
        && decide (e.start_at.toSec ≤ exNow.toSec + 5 * 86400)))
      (fun a b => dtLe a.start_at b.start_at)
    have hfl : exDbDup.events.filter (fun e => e.user_id == 7
        && decide (exNow.toSec ≤ e.start_at.toSec)
        && decide (e.start_at.toSec ≤ exNow.toSec + 5 * 86400))
        = [exDupA, exDupB] := by decide
    rw [hfl] at h
    exact h
  have hnd : ((EventRepository.get_upcoming_events exDbDup 7 exNow 5).map
      (fun e => e.start_at.toSec)).Nodup :=
    List.Pairwise.map _ (fun a b h => Int.ne_of_lt h) hp
  have hmap := hperm.map (fun e => e.start_at.toSec)
  exact absurd (hmap.nodup_iff.mp hnd) (by decide)

/-- Claim C7. Per-user isolation: syncing any batch for user `a` (through
the route, whether it succeeds or fails) and cleaning up past events for
user `a` both leave every event of any other user `b` exactly as stored —
both operations only delete or insert rows owned by `a`. -/
theorem C7_user_isolation (db : DBState) (a b : Nat) (B : List EventCreate)
    (now : Datetime) (hab : b ≠ a) :
    (sync_events_route db a B now).2.events.filter (fun e => e.user_id == b)
      = db.events.filter (fun e => e.user_id == b) ∧
    ((EventRepository.delete_past_events db a now).2.events.filter
        (fun e => e.user_id == b))
      = db.events.filter (fun e => e.user_id == b) := by
  constructor
  · unfold sync_events_route
    cases hsync : EventService.sync_events db a B now with
    | error msg => rfl
    | ok p =>
      obtain ⟨n, db'⟩ := p
      simp only
      rw [sync_events_eq] at hsync
      cases hins : EventService.insertAll a now
          { events := db.events.filter (fun e => !(e.user_id == a))
            nextId := db.nextId } B with
      | error msg => rw [hins] at hsync; cases hsync
      | ok db2 =>
        rw [hins] at hsync
        simp only [Except.ok.injEq, Prod.mk.injEq] at hsync
        obtain ⟨-, hdb⟩ := hsync
        subst hdb
        obtain ⟨-, L, hev, -, huser, -⟩ := insertAll_ok a now B _ db2 hins
        simp only at hev
        rw [hev, List.filter_append]
        have h1 : ((db.events.filter (fun e => !(e.user_id == a))).filter
            (fun e => e.user_id == b))
            = db.events.filter (fun e => e.user_id == b) := by
          rw [List.filter_filter]
          apply List.filter_congr
          intro e _
          cases heb : e.user_id == b
          · simp
          · have heq : e.user_id = b := by simpa using heb
            simp [heq, hab]
        have h2 : L.filter (fun e => e.user_id == b) = [] := by
          apply List.filter_eq_nil_iff.mpr
          intro e he
          have hea := huser e he
          simp [hea]
          exact fun h => hab h.symm
        rw [h1, h2, List.append_nil]
  · simp only [EventRepository.delete_past_events, List.filter_filter]
    apply List.filter_congr
    intro e _
    cases heb : e.user_id == b
    · simp
    · have heq : e.user_id = b := by simpa using heb
      simp [heq, hab]

/-- Witness for C7: syncing and cleaning for user 1 leaves user 2's
events exactly as stored. -/
theorem C7_user_isolation_witness :
    (sync_events_route exDb 1 exBatch exNow).2.events.filter
        (fun e => e.user_id == 2)
      = exDb.events.filter (fun e => e.user_id == 2) ∧
    ((EventRepository.delete_past_events exDb 1 exNow).2.events.filter
        (fun e => e.user_id == 2))
      = exDb.events.filter (fun e => e.user_id == 2) :=
  C7_user_isolation exDb 1 2 exBatch exNow (by decide)

/-- Claim C2, amended. The decision engine follows the policy table:
`location_change` with a non-empty `calendar_events` notifies at normal
priority referencing the first event's title; `time_based` with a
non-empty `calendar_events` notifies at high priority referencing the
first event's title; `activity_change` with `motion.activity_type`
present *and non-empty* monitors with no notification (Python truthiness
treats an empty activity string like an absent one); `health_alert` with
`health` present notifies at high priority with a generic wellness
message; any unrecognized trigger, or a recognized trigger whose
precondition fails, yields `no_action` with no notification and no error,
the reasoning citing the unknown trigger name in the unmatched case. -/
theorem C2_policy_table (u : Nat) (t : String) (s : ContextSnapshot) :
    (t = "location_change" → ∀ ev rest, s.calendar_events = some (ev :: rest) →
      (ContextService.process_context u t s).decision = "notify" ∧
      ∃ p, (ContextService.process_context u t s).notification = some p ∧
        p.priority = some ("normal") ∧
        ∃ pre post, p.body = pre ++ ev.title ++ post) ∧
    (t = "time_based" → ∀ ev rest, s.calendar_events = some (ev :: rest) →
      (ContextService.process_context u t s).decision = "notify" ∧
      ∃ p, (ContextService.process_context u t s).notification = some p ∧
        p.priority = some ("high") ∧
        ∃ pre post, p.body = pre ++ ev.title ++ post) ∧
    (t = "activity_change" → ∀ m a, s.motion = some m →
      m.activity_type = some a → a ≠ "" →
      ContextService.process_context u t s
        = { decision := "monitor"
            reasoning := some ("Activity changed to: " ++ a)
            notification := none }) ∧
    (t = "health_alert" → ∀ hd, s.health = some hd →
      (ContextService.process_context u t s).decision = "notify" ∧
      ∃ p, (ContextService.process_context u t s).notification = some p ∧
        p.priority = some ("high")) ∧
    (t ≠ "location_change" → t ≠ "time_based" → t ≠ "activity_change" →
      t ≠ "health_alert" →
      (ContextService.process_context u t s).decision = "no_action" ∧
      (ContextService.process_context u t s).notification = none ∧
      ∃ pre, (ContextService.process_context u t s).reasoning
        = some (pre ++ t)) ∧
    (t = "location_change" →
      s.calendar_events = none ∨ s.calendar_events = some [] →
      ContextService.process_context u t s = { decision := "no_action" }) ∧
    (t = "time_based" →
      s.calendar_events = none ∨ s.calendar_events = some [] →
      ContextService.process_context u t s = { decision := "no_action" }) ∧
    (t = "activity_change" →
      (s.motion = none ∨ ∃ m, s.motion = some m ∧
        (m.activity_type = none ∨ m.activity_type = some (""))) →
      ContextService.process_context u t s = { decision := "no_action" }) ∧
    (t = "health_alert" → s.health = none →
      ContextService.process_context u t s = { decision := "no_action" }) := by
  refine ⟨?_, ?_, ?_, ?_, ?_, ?_, ?_, ?_, ?_⟩
  · rintro rfl ev rest hcal
    unfold ContextService.process_context
    rw [hcal]
    exact ⟨rfl, _, rfl, rfl, "您的活动 \x27", "\x27 即将开始", rfl⟩
  · rintro rfl ev rest hcal
    unfold ContextService.process_context
    rw [hcal]
    exact ⟨rfl, _, rfl, rfl, "您的活动 \x27", "\x27 将在15分钟后开始", rfl⟩
  · rintro rfl m a hm ha hne
    unfold ContextService.process_context
    simp only [hm, ha]
    rw [if_pos hne]
    rfl
  · rintro rfl hd hh
    unfold ContextService.process_context
    rw [hh]
    exact ⟨rfl, _, rfl, rfl⟩
  · intro h1 h2 h3 h4
    unfold ContextService.process_context
    rw [if_neg h1, if_neg h2, if_neg h3, if_neg h4]
    exact ⟨rfl, rfl, "Unknown trigger type: ", rfl⟩
  · rintro rfl hc
    rcases hc with h | h <;>
      · unfold ContextService.process_context
        rw [h]
        rfl
  · rintro rfl hc
    rcases hc with h | h <;>
      · unfold ContextService.process_context
        rw [h]
        rfl
  · rintro rfl hc
    rcases hc with h | ⟨m, hm, hact⟩
    · unfold ContextService.process_context
      rw [h]
      rfl
    · rcases hact with h | h <;>
        · unfold ContextService.process_context
          simp only [hm, h]
          rfl
  · rintro rfl hh
    unfold ContextService.process_context
    rw [hh]
    rfl

/-- C2 as stated is false at a concrete input: in `exSnapEmptyActivity`
the field `motion.activity_type` is present (it is `some ""`), yet the
engine answers `no_action`, not `monitor`, for `activity_change`. -/
theorem C2_policy_table_counterexample :
    exSnapEmptyActivity.motion.map MotionData.activity_type
      = some (some ("")) ∧
    ContextService.process_context 0 "activity_change" exSnapEmptyActivity
      = { decision := "no_action", reasoning := none, notification := none } :=
  ⟨rfl, rfl⟩

/-- Witness for C2: each row of the policy table at a concrete snapshot. -/
theorem C2_policy_table_witness :
    (ContextService.process_context 0 "location_change" exSnapCal).decision
      = "notify" ∧
    ContextService.process_context 0 "activity_change" exSnapRunning
      = { decision := "monitor"
          reasoning := some ("Activity changed to: running")
          notification := none } ∧
    (ContextService.process_context 0 "health_alert" exSnapHealth).decision
      = "notify" ∧
    (ContextService.process_context 0 "bogus_trigger" exSnapBare).decision
      = "no_action" := by
  refine ⟨((C2_policy_table 0 "location_change" exSnapCal).1
      rfl exCalEvent [] rfl).1, ?_, ?_, ?_⟩
  · exact (C2_policy_table 0 "activity_change" exSnapRunning).2.2.1
      rfl { activity_type := some ("running") } ("running") rfl rfl (by decide)
  · exact ((C2_policy_table 0 "health_alert" exSnapHealth).2.2.2.1
      rfl { heart_rate := some 88 } rfl).1
  · exact ((C2_policy_table 0 "bogus_trigger" exSnapBare).2.2.2.2.1
      (by decide) (by decide) (by decide) (by decide)).1

/-- Claim C6. The context-engine boundary converts any raised error into a
well-formed outcome: decision `"error"`, the error message as reasoning,
and no notification; no exception propagates to the caller. -/
theorem C6_error_boundary (res : Except String ContextEngineResponse)
    (msg : String) (h : res = .error msg) :
    context_engine_boundary res
      = { decision := "error", reasoning := some msg, notification := none } := by
  subst h
  rfl

/-- Witness for C6 at a concrete error. -/
theorem C6_error_boundary_witness :
    context_engine_boundary (.error ("boom"))
      = { decision := "error", reasoning := some "boom", notification := none } :=
  C6_error_boundary (.error ("boom")) "boom" rfl

/-- Claim C8. The decision engine is deterministic and input-confined: in
this embedding it is a pure function of `(trigger, snapshot)` — the
outcome is literally independent of the `user` argument, and equal
inputs give equal outcomes; the call reads and mutates no state. -/
theorem C8_process_context_pure (u u' : Nat) (t : String)
    (s : ContextSnapshot) :
    ContextService.process_context u t s
      = ContextService.process_context u' t s := rfl

/-- Claim C9. Well-formedness of engine outcomes: a notification payload is
attached exactly when the decision is `"notify"`, and the engine only
produces decisions in `{"no_action", "monitor", "notify"}`. -/
theorem C9_outcome_well_formed (u : Nat) (t : String) (s : ContextSnapshot) :
    ((ContextService.process_context u t s).notification.isSome
      ↔ (ContextService.process_context u t s).decision = "notify") ∧
    (ContextService.process_context u t s).decision
      ∈ ["no_action", "monitor", "notify"] := by
  unfold ContextService.process_context
  repeat' split
  all_goals simp

/-- Claim C10. Round-trip serialization: converting a stored event to the
external response representation (timestamps rendered as ISO-8601) and
parsing that representation back reproduces every field exactly,
identity included. -/
theorem C10_event_roundtrip (e : Event) (h1 : e.start_at.Valid)
    (h2 : e.end_at.Valid) (h3 : e.created_at.Valid)
    (h4 : e.updated_at.Valid) :
    from_response (EventService.to_response e) = some e := by
  unfold EventService.to_response from_response
  simp only [parseIso_isoformat e.start_at h1, parseIso_isoformat e.end_at h2,
    parseIso_isoformat e.created_at h3, parseIso_isoformat e.updated_at h4,
    Option.bind_eq_bind, Option.some_bind]

/-- Witness for C10: the fully-populated `exFull` survives the round
trip unchanged. -/
theorem C10_event_roundtrip_witness :
    from_response (EventService.to_response exFull) = some exFull :=
  C10_event_roundtrip exFull (by decide) (by decide) (by decide) (by decide)
